

import Mathlib

/-
Verification of the statistics core of NFL RetroVault (RecordsTab):
top-N leaderboards, guarded ratio metrics, season scoring and tiers,
single-season records, and record-pace projection.

Numeric JS values are modelled as rationals (ℚ); JS `Array.prototype.sort`
with a numeric comparator is modelled as a stable insertion sort on the
comparator's key; `undefined` results (e.g. `arr[0]` of an empty array or a
failed `find`) are modelled with `Option`.
-/

set_option maxHeartbeats 1000000

namespace RetroVault

/-! ## Definitions

The data model and the operations of the records tab, embedded from the
source, together with the sorting model and demo inputs used by witnesses. -/

def insertOrd {α : Type} (le : α → α → Bool) (a : α) : List α → List α
  | [] => [a]
  | b :: l => if le a b then a :: b :: l else b :: insertOrd le a l

def sortOrd {α : Type} (le : α → α → Bool) : List α → List α
  | [] => []
  | a :: l => insertOrd le a (sortOrd le l)

/-- Descending sort by a key, as produced by `sort((a,b) => f(b) - f(a))`. -/
def sortDescBy {α β : Type} [LinearOrder β] (f : α → β) (l : List α) : List α :=
  sortOrd (fun a b => decide (f b ≤ f a)) l

/-- Ascending sort by a key, as produced by `sort((a,b) => f(a) - f(b))`. -/
def sortAscBy {α β : Type} [LinearOrder β] (f : α → β) (l : List α) : List α :=
  sortOrd (fun a b => decide (f a ≤ f b)) l

/-- The `RecordEntry` value object produced by the leaderboard builder. -/
structure RecordEntry where
  stat : String
  value : ℚ
  playerName : String
  team : Option String
  position : String
  season : Option String := none
  deriving DecidableEq

/-- A `TopNRecord`: a named leaderboard with its ranked entries. -/
structure TopNRecord where
  stat : String
  description : String
  entries : List RecordEntry
  deriving DecidableEq

/-- Career aggregate for a quarterback (fields used by the records code). -/
structure QBPlayer where
  name : String
  team : Option String
  position : String
  status : String
  games : ℚ
  passYds : ℚ
  passTD : ℚ
  attempts : ℚ
  completions : ℚ
  interceptions : ℚ
  rushYds : ℚ
  rushTD : ℚ
  rings : ℚ
  mvp : ℚ
  careerLegacy : ℚ
  dominance : ℚ
  deriving DecidableEq

/-- Career aggregate for a running back (fields used by the records code). -/
structure RBPlayer where
  name : String
  team : Option String
  position : String
  status : String
  games : ℚ
  rushYds : ℚ
  rushTD : ℚ
  rushAtt : ℚ
  recYds : ℚ
  rings : ℚ
  mvp : ℚ
  careerLegacy : ℚ
  dominance : ℚ
  deriving DecidableEq

/-- Career aggregate for a wide receiver / tight end (fields used by the records code). -/
structure WRPlayer where
  name : String
  team : Option String
  position : String
  status : String
  games : ℚ
  recYds : ℚ
  recTD : ℚ
  receptions : ℚ
  rings : ℚ
  mvp : ℚ
  careerLegacy : ℚ
  dominance : ℚ
  deriving DecidableEq

/-- Career aggregate for a defensive player (LB/DB/DL union, fields used by the records code). -/
structure DefPlayer where
  name : String
  team : Option String
  position : String
  status : String
  games : ℚ
  tackles : ℚ
  sacks : ℚ
  interceptions : ℚ
  forcedFumbles : ℚ
  rings : ℚ
  mvp : ℚ
  careerLegacy : ℚ
  dominance : ℚ
  deriving DecidableEq

/-- One player's stat line for one season (`SeasonSnapshot` from `seasonHistory`).
Optional numeric fields (`snapshot.x || 0` in the source) are modelled as
rationals defaulting to 0. -/
structure SeasonSnapshot where
  season : String
  passYds : ℚ := 0
  passTD : ℚ := 0
  rushYds : ℚ := 0
  rushTD : ℚ := 0
  interceptions : ℚ := 0
  recYds : ℚ := 0
  recTD : ℚ := 0
  receptions : ℚ := 0
  tackles : ℚ := 0
  sacks : ℚ := 0
  forcedFumbles : ℚ := 0
  mvp : ℚ := 0
  opoy : ℚ := 0
  sbmvp : ℚ := 0
  roty : ℚ := 0
  rings : ℚ := 0
  deriving DecidableEq

/-- The sublist of players actually selected by `findTopN`:
`[...players].filter(p => getValue(p) > 0).sort((a,b) => getValue(b)-getValue(a)).slice(0,n)`. -/
def topNSelect {T : Type} (players : List T) (getValue : T → ℚ) (n : ℕ) : List T :=
  (sortDescBy getValue (players.filter (fun p => decide (0 < getValue p)))).take n

/-- The `findTopN` primitive from the records tab: returns `null` (modelled `none`) for an empty
player list or when no player has a positive value, otherwise the top-`n`
leaderboard. `pname`, `pteam`, `ppos` are the projections `p.name`, `p.team`,
`p.position` used to build the entries. -/
def findTopN {T : Type} (players : List T) (getValue : T → ℚ)
    (pname : T → String) (pteam : T → Option String) (ppos : T → String)
    (stat description : String) (n : ℕ) : Option TopNRecord :=
  if players.length = 0 then none
  else
    let sorted := topNSelect players getValue n
    if sorted.length = 0 then none
    else
      let entries := sorted.map (fun p =>
        { stat := stat, value := getValue p, playerName := pname p,
          team := pteam p, position := ppos p : RecordEntry })
      some { stat := stat, description := description, entries := entries }

/-- Value function of `records.qbYPA`: `p.attempts > 0 ? p.passYds / p.attempts : 0`. -/
def qbYPAvalue (p : QBPlayer) : ℚ :=
  if 0 < p.attempts then p.passYds / p.attempts else 0

/-- Value function of `records.qbTDINT`:
`p.interceptions > 0 ? p.passTD / p.interceptions : p.passTD`. -/
def qbTDINTvalue (p : QBPlayer) : ℚ :=
  if 0 < p.interceptions then p.passTD / p.interceptions else p.passTD

/-- Value function of `records.rbYPC`: `p.rushAtt > 0 ? p.rushYds / p.rushAtt : 0`. -/
def rbYPCvalue (p : RBPlayer) : ℚ :=
  if 0 < p.rushAtt then p.rushYds / p.rushAtt else 0

/-- Value function of `records.wrYPR`: `p.receptions > 0 ? p.recYds / p.receptions : 0`. -/
def wrYPRvalue (p : WRPlayer) : ℚ :=
  if 0 < p.receptions then p.recYds / p.receptions else 0

/-- Leaderboard `records.qbYPA = findTopN(qbs, ..., 'Yards Per Attempt', 'Pass efficiency', 5)`. -/
def qbYPArecord (qbs : List QBPlayer) : Option TopNRecord :=
  findTopN qbs qbYPAvalue QBPlayer.name QBPlayer.team QBPlayer.position
    "Yards Per Attempt" "Pass efficiency" 5

/-- Leaderboard `records.qbTDINT = findTopN(qbs, ..., 'TD/INT Ratio', 'Decision making', 5)`. -/
def qbTDINTrecord (qbs : List QBPlayer) : Option TopNRecord :=
  findTopN qbs qbTDINTvalue QBPlayer.name QBPlayer.team QBPlayer.position
    "TD/INT Ratio" "Decision making" 5

/-- Advanced-metric leader `topTDINT`:
`qbs.filter(p => p.interceptions > 0).sort(by passTD/interceptions desc)[0]`. -/
def topTDINT (qbs : List QBPlayer) : Option QBPlayer :=
  (sortDescBy (fun p => p.passTD / p.interceptions)
    (qbs.filter (fun p => decide (0 < p.interceptions)))).head?

/-- Eligibility pool of `topQBEff`: `qbs.filter(p => p.attempts > 200)`. -/
def qbEffPool (qbs : List QBPlayer) : List QBPlayer :=
  qbs.filter (fun p => decide (200 < p.attempts))

/-- Advanced-metric leader `topQBEff`:
`qbs.filter(p => p.attempts > 200).sort(by passYds/attempts desc)[0]`. -/
def topQBEff (qbs : List QBPlayer) : Option QBPlayer :=
  (sortDescBy (fun p => p.passYds / p.attempts) (qbEffPool qbs)).head?

/-- Eligibility pool of `topYPR`: `wrs.filter(p => p.receptions > 50)`. -/
def wrYPRPool (wrs : List WRPlayer) : List WRPlayer :=
  wrs.filter (fun p => decide (50 < p.receptions))

/-- Advanced-metric leader `topYPR`:
`wrs.filter(p => p.receptions > 50).sort(by recYds/receptions desc)[0]`. -/
def topYPR (wrs : List WRPlayer) : Option WRPlayer :=
  (sortDescBy (fun p => p.recYds / p.receptions) (wrYPRPool wrs)).head?

/-- Eligibility pool of `topSackRate`: `allDef.filter(p => p.games > 32)`. -/
def defSackPool (defs : List DefPlayer) : List DefPlayer :=
  defs.filter (fun p => decide (32 < p.games))

/-- Advanced-metric leader `topSackRate`:
`allDef.filter(p => p.games > 32).sort(by sacks/games desc)[0]`. -/
def topSackRate (defs : List DefPlayer) : Option DefPlayer :=
  (sortDescBy (fun p => p.sacks / p.games) (defSackPool defs)).head?

/-- A quarterback with zero interceptions and ten touchdown passes. -/
def noIntQB : QBPlayer :=
  { name := "NoInt", team := none, position := "QB", status := "Active",
    games := 16, passYds := 3000, passTD := 10, attempts := 300, completions := 200,
    interceptions := 0, rushYds := 0, rushTD := 0, rings := 0, mvp := 0,
    careerLegacy := 0, dominance := 0 }

/-- A quarterback with zero attempts and zero interceptions. -/
def zeroDenQB : QBPlayer :=
  { name := "ZeroDen", team := none, position := "QB", status := "Active",
    games := 4, passYds := 0, passTD := 2, attempts := 0, completions := 0,
    interceptions := 0, rushYds := 0, rushTD := 0, rings := 0, mvp := 0,
    careerLegacy := 0, dominance := 0 }

/-- A quarterback with exactly 200 career pass attempts and an excellent ratio. -/
def thresholdQB : QBPlayer :=
  { name := "Edge", team := none, position := "QB", status := "Active",
    games := 20, passYds := 2400, passTD := 20, attempts := 200, completions := 150,
    interceptions := 1, rushYds := 0, rushTD := 0, rings := 0, mvp := 0,
    careerLegacy := 0, dominance := 0 }

/-- A wide receiver with exactly 50 career receptions. -/
def thresholdWR : WRPlayer :=
  { name := "EdgeWR", team := none, position := "WR", status := "Active",
    games := 20, recYds := 1000, recTD := 8, receptions := 50, rings := 0, mvp := 0,
    careerLegacy := 0, dominance := 0 }

/-- A defensive player with exactly 32 career games. -/
def thresholdDef : DefPlayer :=
  { name := "EdgeDef", team := none, position := "LB", status := "Active",
    games := 32, tackles := 300, sacks := 40, interceptions := 4, forcedFumbles := 3,
    rings := 0, mvp := 0, careerLegacy := 0, dominance := 0 }

/-- A quarterback with 201 career pass attempts (just over the strict bound). -/
def overQB : QBPlayer :=
  { name := "Over", team := none, position := "QB", status := "Active",
    games := 20, passYds := 2412, passTD := 20, attempts := 201, completions := 150,
    interceptions := 1, rushYds := 0, rushTD := 0, rings := 0, mvp := 0,
    careerLegacy := 0, dominance := 0 }

/-- Award bonus of `calculateSeasonScore`:
`mvp*100 + opoy*75 + sbmvp*80 + roty*50 + rings*60`. -/
def awardBonus (s : SeasonSnapshot) : ℚ :=
  s.mvp * 100 + s.opoy * 75 + s.sbmvp * 80 + s.roty * 50 + s.rings * 60

/-- The `calculateSeasonScore(snapshot, position)` formula with its four position branches. -/
def calculateSeasonScore (s : SeasonSnapshot) (position : String) : ℚ :=
  if position = "QB" then
    s.passYds / 50 + s.passTD * 10 + s.rushYds / 20 + s.rushTD * 15 -
      s.interceptions * 5 + awardBonus s
  else if position = "RB" then
    s.rushYds / 20 + s.rushTD * 15 + s.recYds / 30 + s.recTD * 10 + awardBonus s
  else if position = "WR" ∨ position = "TE" then
    s.recYds / 20 + s.receptions * 2 + s.recTD * 15 + awardBonus s
  else
    s.tackles * 2 + s.sacks * 15 + s.interceptions * 20 + s.forcedFumbles * 10 + awardBonus s

/-- Discrete tier returned by `getSeasonTier` (label plus styling strings). -/
structure Tier where
  label : String
  color : String
  bg : String
  border : String
  deriving DecidableEq

/-- The tier cascade `getSeasonTier(score)`: cascade of inclusive lower bounds. -/
def getSeasonTier (score : ℚ) : Tier :=
  if 800 ≤ score then
    ⟨"LEGENDARY", "text-amber-400", "bg-amber-500/15", "border-amber-500/40"⟩
  else if 600 ≤ score then
    ⟨"ELITE", "text-purple-400", "bg-purple-500/15", "border-purple-500/40"⟩
  else if 400 ≤ score then
    ⟨"GREAT", "text-blue-400", "bg-blue-500/15", "border-blue-500/40"⟩
  else if 250 ≤ score then
    ⟨"NOTABLE", "text-emerald-400", "bg-emerald-500/15", "border-emerald-500/40"⟩
  else
    ⟨"SOLID", "text-slate-400", "bg-slate-500/15", "border-slate-500/40"⟩

/-- The QB snapshot from the spec's worked example. -/
def qb370snapshot : SeasonSnapshot :=
  { season := "Y1", passYds := 4000, passTD := 30, rushYds := 200, rushTD := 2,
    interceptions := 10 }

/-- Position prefix of a player key: `key.split(':')[0]`. -/
def keyPosition (key : String) : String := (key.splitOn ":").headD ""

/-- Player name from a key: the remaining segments rejoined,
`key.split(':').slice(1).join(':')`. -/
def keyName (key : String) : String := String.intercalate ":" (key.splitOn ":").tail

/-- Award counts carried by a `GreatSeason`. -/
structure AwardCounts where
  mvp : ℚ
  opoy : ℚ
  sbmvp : ℚ
  roty : ℚ
  rings : ℚ
  deriving DecidableEq

/-- The `GreatSeason` value object of the greatest-seasons view. -/
structure GreatSeason where
  playerName : String
  position : String
  team : Option String := none
  season : String
  score : ℚ
  stats : List (String × ℚ)
  awards : AwardCounts
  deriving DecidableEq

/-- Builds the `GreatSeason` pushed for one snapshot in `greatestSeasons`
(key stats are included when the raw field is truthy, i.e. nonzero). -/
def mkGreatSeason (key : String) (s : SeasonSnapshot) : GreatSeason :=
  let position := keyPosition key
  let score := calculateSeasonScore s position
  let stats :=
    if position = "QB" then
      (if s.passYds ≠ 0 then [("Pass Yds", s.passYds)] else []) ++
      (if s.passTD ≠ 0 then [("Pass TD", s.passTD)] else []) ++
      (if s.rushYds ≠ 0 then [("Rush Yds", s.rushYds)] else [])
    else if position = "RB" then
      (if s.rushYds ≠ 0 then [("Rush Yds", s.rushYds)] else []) ++
      (if s.rushTD ≠ 0 then [("Rush TD", s.rushTD)] else []) ++
      (if s.recYds ≠ 0 then [("Rec Yds", s.recYds)] else [])
    else if position = "WR" ∨ position = "TE" then
      (if s.recYds ≠ 0 then [("Rec Yds", s.recYds)] else []) ++
      (if s.receptions ≠ 0 then [("Rec", s.receptions)] else []) ++
      (if s.recTD ≠ 0 then [("Rec TD", s.recTD)] else [])
    else
      (if s.tackles ≠ 0 then [("Tackles", s.tackles)] else []) ++
      (if s.sacks ≠ 0 then [("Sacks", s.sacks)] else []) ++
      (if s.interceptions ≠ 0 then [("INTs", s.interceptions)] else [])
  { playerName := keyName key, position := position, season := s.season,
    score := score, stats := stats,
    awards := ⟨s.mvp, s.opoy, s.sbmvp, s.roty, s.rings⟩ }

/-- All scored seasons accumulated by `greatestSeasons` before sorting: players
with at most one recorded season are skipped (`if (snapshots.length <= 1) return`). -/
def scoredSeasons (history : List (String × List SeasonSnapshot)) : List GreatSeason :=
  history.flatMap (fun e =>
    if e.2.length ≤ 1 then [] else e.2.map (mkGreatSeason e.1))

/-- The `greatestSeasons` view: scored seasons sorted descending by score, top 20. -/
def greatestSeasons (history : List (String × List SeasonSnapshot)) : List GreatSeason :=
  (sortDescBy (fun g => g.score) (scoredSeasons history)).take 20

/-- The `allSnapshots` list accumulated by the single-season records view: `(key, snapshot)`
pairs of players with more than one recorded season. -/
def allSeasonPairs (history : List (String × List SeasonSnapshot)) :
    List (String × SeasonSnapshot) :=
  history.flatMap (fun e =>
    if e.2.length ≤ 1 then [] else e.2.map (fun s => (e.1, s)))

/-- The `(key, snapshot)` pairs selected by `findTopNSeason`: key-filtered, then
value-filtered to positive, sorted descending, first `n`. -/
def seasonSelect (history : List (String × List SeasonSnapshot))
    (filt : String → Bool) (getValue : SeasonSnapshot → ℚ) (n : ℕ) :
    List (String × SeasonSnapshot) :=
  topNSelect ((allSeasonPairs history).filter (fun pr => filt pr.1))
    (fun pr => getValue pr.2) n

/-- The `findTopNSeason` primitive from the single-season records view. -/
def findTopNSeason (history : List (String × List SeasonSnapshot))
    (filt : String → Bool) (getValue : SeasonSnapshot → ℚ)
    (stat description : String) (n : ℕ) : Option TopNRecord :=
  let filtered := (allSeasonPairs history).filter (fun pr => filt pr.1)
  if filtered.length = 0 then none
  else
    let sorted := seasonSelect history filt getValue n
    if sorted.length = 0 then none
    else
      let entries := sorted.map (fun pr =>
        { stat := stat, value := getValue pr.2, playerName := keyName pr.1,
          team := none, position := keyPosition pr.1,
          season := some pr.2.season : RecordEntry })
      some { stat := stat, description := description, entries := entries }

/-- First demo season of the two-season player. -/
def duoSeason1 : SeasonSnapshot := { season := "Y1", passYds := 3000, passTD := 20 }

/-- Second demo season of the two-season player. -/
def duoSeason2 : SeasonSnapshot := { season := "Y2", passYds := 3500, passTD := 25 }

/-- Demo season of the single-season player (a huge, table-topping year). -/
def soloSeason : SeasonSnapshot := { season := "Y1", passYds := 6000, passTD := 60 }

/-- Demo history: one single-season player and one two-season player. -/
def demoHistory : List (String × List SeasonSnapshot) :=
  [("QB:Solo", [soloSeason]), ("QB:Duo", [duoSeason1, duoSeason2])]

/-- The `PaceToRecord` value object of the pace projector. -/
structure PaceToRecord where
  playerName : String
  position : String
  team : Option String
  recordName : String
  currentValue : ℚ
  recordValue : ℚ
  recordHolder : String
  seasonsToBreak : ℤ
  pacePerSeason : ℚ
  percentToRecord : ℚ
  deriving DecidableEq

/-- Record value `passYdsRecord = qbs.length > 0 ? Math.max(...qbs.map(q => q.passYds)) : 0`. -/
def passYdsRecord (qbs : List QBPlayer) : ℚ :=
  match qbs.map (fun q => q.passYds) with
  | [] => 0
  | v :: vs => vs.foldl max v

/-- Record holder `passYdsHolder = qbs.find(q => q.passYds === passYdsRecord)`. -/
def passYdsHolder (qbs : List QBPlayer) : Option QBPlayer :=
  qbs.find? (fun q => decide (q.passYds = passYdsRecord qbs))

/-- Record value `rushYdsRecord = rbs.length > 0 ? Math.max(...rbs.map(r => r.rushYds)) : 0`. -/
def rushYdsRecord (rbs : List RBPlayer) : ℚ :=
  match rbs.map (fun r => r.rushYds) with
  | [] => 0
  | v :: vs => vs.foldl max v

/-- Record holder `rushYdsHolder = rbs.find(r => r.rushYds === rushYdsRecord)`. -/
def rushYdsHolder (rbs : List RBPlayer) : Option RBPlayer :=
  rbs.find? (fun r => decide (r.rushYds = rushYdsRecord rbs))

/-- Record value `recYdsRecord = wrs.length > 0 ? Math.max(...wrs.map(w => w.recYds)) : 0`. -/
def recYdsRecord (wrs : List WRPlayer) : ℚ :=
  match wrs.map (fun w => w.recYds) with
  | [] => 0
  | v :: vs => vs.foldl max v

/-- Record holder `recYdsHolder = wrs.find(w => w.recYds === recYdsRecord)`. -/
def recYdsHolder (wrs : List WRPlayer) : Option WRPlayer :=
  wrs.find? (fun w => decide (w.recYds = recYdsRecord wrs))

/-- The `PaceToRecord` literal pushed for an active QB inside the pace loop. -/
def qbPaceEntry (recV : ℚ) (hname : String) (qb : QBPlayer) (yds : ℚ) : PaceToRecord :=
  { playerName := qb.name, position := "QB", team := qb.team,
    recordName := "Career Passing Yards", currentValue := qb.passYds,
    recordValue := recV, recordHolder := hname,
    seasonsToBreak := Int.ceil ((recV - qb.passYds) / yds), pacePerSeason := yds,
    percentToRecord := qb.passYds / recV * 100 }

/-- One iteration of the `activeQBs.forEach` pace loop: computes the
16-game-equivalent pace and pushes a `PaceToRecord` when the pace is positive,
the current total is below the record, a record holder exists, and
`seasonsToBreak ≤ 5`. -/
def qbPaceStep (recV : ℚ) (holder : Option QBPlayer) (qb : QBPlayer) :
    Option PaceToRecord :=
  let yds := if 0 < qb.games then qb.passYds / qb.games * 16 else 0
  match holder with
  | none => none
  | some h =>
    if 0 < yds ∧ qb.passYds < recV then
      if Int.ceil ((recV - qb.passYds) / yds) ≤ 5 then
        some (qbPaceEntry recV h.name qb yds)
      else none
    else none

/-- The QB portion of the pace list:
`qbs.filter(q => q.status === 'Active' && q.games >= 16)` then the loop. -/
def qbPaceRecords (qbs : List QBPlayer) : List PaceToRecord :=
  (qbs.filter (fun q => decide (q.status = "Active") && decide ((16 : ℚ) ≤ q.games))).filterMap
    (qbPaceStep (passYdsRecord qbs) (passYdsHolder qbs))

/-- RB analogue of `qbPaceEntry` (career rushing yards). -/
def rbPaceEntry (recV : ℚ) (hname : String) (rb : RBPlayer) (yds : ℚ) : PaceToRecord :=
  { playerName := rb.name, position := "RB", team := rb.team,
    recordName := "Career Rushing Yards", currentValue := rb.rushYds,
    recordValue := recV, recordHolder := hname,
    seasonsToBreak := Int.ceil ((recV - rb.rushYds) / yds), pacePerSeason := yds,
    percentToRecord := rb.rushYds / recV * 100 }

/-- RB analogue of `qbPaceStep`. -/
def rbPaceStep (recV : ℚ) (holder : Option RBPlayer) (rb : RBPlayer) :
    Option PaceToRecord :=
  let yds := if 0 < rb.games then rb.rushYds / rb.games * 16 else 0
  match holder with
  | none => none
  | some h =>
    if 0 < yds ∧ rb.rushYds < recV then
      if Int.ceil ((recV - rb.rushYds) / yds) ≤ 5 then
        some (rbPaceEntry recV h.name rb yds)
      else none
    else none

/-- The RB portion of the pace list. -/
def rbPaceRecords (rbs : List RBPlayer) : List PaceToRecord :=
  (rbs.filter (fun r => decide (r.status = "Active") && decide ((16 : ℚ) ≤ r.games))).filterMap
    (rbPaceStep (rushYdsRecord rbs) (rushYdsHolder rbs))

/-- WR analogue of `qbPaceEntry` (career receiving yards). -/
def wrPaceEntry (recV : ℚ) (hname : String) (wr : WRPlayer) (yds : ℚ) : PaceToRecord :=
  { playerName := wr.name, position := "WR", team := wr.team,
    recordName := "Career Receiving Yards", currentValue := wr.recYds,
    recordValue := recV, recordHolder := hname,
    seasonsToBreak := Int.ceil ((recV - wr.recYds) / yds), pacePerSeason := yds,
    percentToRecord := wr.recYds / recV * 100 }

/-- WR analogue of `qbPaceStep`. -/
def wrPaceStep (recV : ℚ) (holder : Option WRPlayer) (wr : WRPlayer) :
    Option PaceToRecord :=
  let yds := if 0 < wr.games then wr.recYds / wr.games * 16 else 0
  match holder with
  | none => none
  | some h =>
    if 0 < yds ∧ wr.recYds < recV then
      if Int.ceil ((recV - wr.recYds) / yds) ≤ 5 then
        some (wrPaceEntry recV h.name wr yds)
      else none
    else none

/-- The WR portion of the pace list. -/
def wrPaceRecords (wrs : List WRPlayer) : List PaceToRecord :=
  (wrs.filter (fun w => decide (w.status = "Active") && decide ((16 : ℚ) ≤ w.games))).filterMap
    (wrPaceStep (recYdsRecord wrs) (recYdsHolder wrs))

/-- The full `paceToRecords` list: QB, RB and WR pace entries accumulated in push order, then
`paceRecords.sort((a, b) => a.seasonsToBreak - b.seasonsToBreak)`. -/
def paceToRecords (qbs : List QBPlayer) (rbs : List RBPlayer) (wrs : List WRPlayer) :
    List PaceToRecord :=
  sortAscBy (fun r => r.seasonsToBreak)
    (qbPaceRecords qbs ++ rbPaceRecords rbs ++ wrPaceRecords wrs)

/-- A retired record holder with 600 career passing yards. -/
def recHolder600 : QBPlayer :=
  { name := "Holder", team := none, position := "QB", status := "Retired",
    games := 100, passYds := 600, passTD := 0, attempts := 0, completions := 0,
    interceptions := 0, rushYds := 0, rushTD := 0, rings := 0, mvp := 0,
    careerLegacy := 0, dominance := 0 }

/-- A retired record holder with 700 career passing yards. -/
def recHolder700 : QBPlayer :=
  { name := "Holder", team := none, position := "QB", status := "Retired",
    games := 100, passYds := 700, passTD := 0, attempts := 0, completions := 0,
    interceptions := 0, rushYds := 0, rushTD := 0, rings := 0, mvp := 0,
    careerLegacy := 0, dominance := 0 }

/-- An active QB pacing exactly 100 passing yards per 16 games, at 100 total. -/
def paceSetter : QBPlayer :=
  { name := "Pacer", team := none, position := "QB", status := "Active",
    games := 16, passYds := 100, passTD := 0, attempts := 0, completions := 0,
    interceptions := 0, rushYds := 0, rushTD := 0, rings := 0, mvp := 0,
    careerLegacy := 0, dominance := 0 }

/-- A heap of JS arrays; a reference is an index into the allocation list. -/
abbrev Store (T : Type) : Type := List (List T)

/-- Dereference an array (out-of-range reads give `[]`, never reached here). -/
def readRef {T : Type} (σ : Store T) (r : ℕ) : List T := σ.getD r []

/-- Allocate a fresh array, returning the new heap and the new reference. -/
def allocRef {T : Type} (σ : Store T) (xs : List T) : Store T × ℕ :=
  (σ ++ [xs], σ.length)

/-- Overwrite the array behind an existing reference (in-place `sort`). -/
def writeRef {T : Type} (σ : Store T) (r : ℕ) (xs : List T) : Store T :=
  σ.set r xs

/-- The `findTopN` computation over the heap, step for step:
`[...players]` allocates a copy, `.filter` allocates, `.sort` writes the
filtered array in place, `.slice(0, n)` allocates. -/
def findTopNProg {T : Type} (σ : Store T) (r : ℕ) (getValue : T → ℚ)
    (pname : T → String) (pteam : T → Option String) (ppos : T → String)
    (stat description : String) (n : ℕ) : Store T × Option TopNRecord :=
  let players := readRef σ r
  if players.length = 0 then (σ, none)
  else
    let a1 := allocRef σ players
    let a2 := allocRef a1.1 ((readRef a1.1 a1.2).filter (fun p => decide (0 < getValue p)))
    let σ3 := writeRef a2.1 a2.2 (sortDescBy getValue (readRef a2.1 a2.2))
    let a4 := allocRef σ3 ((readRef σ3 a2.2).take n)
    let sorted := readRef a4.1 a4.2
    if sorted.length = 0 then (a4.1, none)
    else
      let entries := sorted.map (fun p =>
        { stat := stat, value := getValue p, playerName := pname p,
          team := pteam p, position := ppos p : RecordEntry })
      (a4.1, some { stat := stat, description := description, entries := entries })

/-- The `topQBEff` computation over the heap: `.filter` allocates, `.sort` writes that fresh
array in place, `[0]` reads its head. -/
def topQBEffProg (σ : Store QBPlayer) (r : ℕ) : Store QBPlayer × Option QBPlayer :=
  let qbs := readRef σ r
  let a1 := allocRef σ (qbs.filter (fun p => decide (200 < p.attempts)))
  let σ2 := writeRef a1.1 a1.2
    (sortDescBy (fun p => p.passYds / p.attempts) (readRef a1.1 a1.2))
  (σ2, (readRef σ2 a1.2).head?)

/-! ## Theorems -/

theorem insertOrd_perm {α : Type} (le : α → α → Bool) (a : α) (l : List α) :
    List.Perm (insertOrd le a l) (a :: l) := by
  induction l with
  | nil => simp [insertOrd]
  | cons b l ih =>
    by_cases h : le a b
    · simp [insertOrd, h]
    · simp only [insertOrd, h, Bool.false_eq_true, if_false]
      exact (ih.cons b).trans (List.Perm.swap a b l)

theorem sortOrd_perm {α : Type} (le : α → α → Bool) (l : List α) :
    List.Perm (sortOrd le l) l := by
  induction l with
  | nil => simp [sortOrd]
  | cons a l ih => exact (insertOrd_perm le a (sortOrd le l)).trans (ih.cons a)

theorem mem_sortOrd {α : Type} {le : α → α → Bool} {l : List α} {a : α} :
    a ∈ sortOrd le l ↔ a ∈ l := (sortOrd_perm le l).mem_iff

theorem insertOrd_pairwise {α : Type} {le : α → α → Bool}
    (htot : ∀ a b, le a b = true ∨ le b a = true)
    (htrans : ∀ a b c, le a b = true → le b c = true → le a c = true)
    (a : α) {l : List α} (h : l.Pairwise (fun x y => le x y = true)) :
    (insertOrd le a l).Pairwise (fun x y => le x y = true) := by
  induction l with
  | nil => simp [insertOrd]
  | cons b l ih =>
    rcases List.pairwise_cons.mp h with ⟨hb, hl⟩
    by_cases hab : le a b
    · simp only [insertOrd, hab, if_true]
      refine List.pairwise_cons.mpr ⟨?_, h⟩
      intro x hx
      rcases List.mem_cons.mp hx with rfl | hx
      · exact hab
      · exact htrans a b x hab (hb x hx)
    · simp only [insertOrd, hab, Bool.false_eq_true, if_false]
      refine List.pairwise_cons.mpr ⟨?_, ih hl⟩
      intro x hx
      have hx' := (insertOrd_perm le a l).mem_iff.mp hx
      rcases List.mem_cons.mp hx' with h1 | hx'
      · rw [h1]
        rcases htot a b with hh | hh
        · exact absurd hh (by simpa using hab)
        · exact hh
      · exact hb x hx'

theorem sortOrd_pairwise {α : Type} {le : α → α → Bool}
    (htot : ∀ a b, le a b = true ∨ le b a = true)
    (htrans : ∀ a b c, le a b = true → le b c = true → le a c = true)
    (l : List α) : (sortOrd le l).Pairwise (fun x y => le x y = true) := by
  induction l with
  | nil => simp [sortOrd]
  | cons a l ih => exact insertOrd_pairwise htot htrans a ih

theorem sortDescBy_pairwise {α β : Type} [LinearOrder β] (f : α → β) (l : List α) :
    (sortDescBy f l).Pairwise (fun x y => f y ≤ f x) := by
  have h := @sortOrd_pairwise _ (fun a b => decide (f b ≤ f a))
    (fun a b => by
      rcases le_total (f b) (f a) with h | h
      · exact Or.inl (by simpa using h)
      · exact Or.inr (by simpa using h))
    (fun a b c hab hbc => by
      simp only [decide_eq_true_eq] at hab hbc ⊢
      exact le_trans hbc hab) l
  exact h.imp (by intro x y hxy; simpa using hxy)

theorem sortAscBy_pairwise {α β : Type} [LinearOrder β] (f : α → β) (l : List α) :
    (sortAscBy f l).Pairwise (fun x y => f x ≤ f y) := by
  have h := @sortOrd_pairwise _ (fun a b => decide (f a ≤ f b))
    (fun a b => by
      rcases le_total (f a) (f b) with h | h
      · exact Or.inl (by simpa using h)
      · exact Or.inr (by simpa using h))
    (fun a b c hab hbc => by
      simp only [decide_eq_true_eq] at hab hbc ⊢
      exact le_trans hab hbc) l
  exact h.imp (by intro x y hxy; simpa using hxy)

theorem sortDescBy_perm {α β : Type} [LinearOrder β] (f : α → β) (l : List α) :
    List.Perm (sortDescBy f l) l := sortOrd_perm _ l

theorem sortAscBy_perm {α β : Type} [LinearOrder β] (f : α → β) (l : List α) :
    List.Perm (sortAscBy f l) l := sortOrd_perm _ l

theorem topNSelect_length_le {T : Type} (players : List T) (getValue : T → ℚ) (n : ℕ) :
    (topNSelect players getValue n).length ≤ n := by
  simp only [topNSelect, List.length_take]
  exact min_le_left _ _

theorem topNSelect_pairwise {T : Type} (players : List T) (getValue : T → ℚ) (n : ℕ) :
    (topNSelect players getValue n).Pairwise (fun a b => getValue b ≤ getValue a) :=
  (sortDescBy_pairwise getValue _).sublist (List.take_sublist _ _)

theorem topNSelect_pos {T : Type} (players : List T) (getValue : T → ℚ) (n : ℕ) :
    ∀ p ∈ topNSelect players getValue n, 0 < getValue p := by
  intro p hp
  have hp' : p ∈ sortDescBy getValue (players.filter (fun p => decide (0 < getValue p))) :=
    List.mem_of_mem_take hp
  have hp2 : p ∈ players.filter (fun p => decide (0 < getValue p)) :=
    (sortDescBy_perm getValue _).mem_iff.mp hp'
  simpa using (List.mem_filter.mp hp2).2

theorem topNSelect_mem {T : Type} (players : List T) (getValue : T → ℚ) (n : ℕ) :
    ∀ p ∈ topNSelect players getValue n, p ∈ players := by
  intro p hp
  have hp' := (sortDescBy_perm getValue _).mem_iff.mp (List.mem_of_mem_take hp)
  exact (List.mem_filter.mp hp').1

theorem topNSelect_eq_nil {T : Type} (players : List T) (getValue : T → ℚ) (n : ℕ)
    (h : ∀ p ∈ players, ¬ 0 < getValue p) : topNSelect players getValue n = [] := by
  have hf : players.filter (fun p => decide (0 < getValue p)) = [] := by
    apply List.filter_eq_nil_iff.mpr
    intro a ha
    simpa using h a ha
  simp [topNSelect, hf, sortDescBy, sortOrd]

/-- C1: for every player sequence, value function and bound `n`, a `findTopN`
leaderboard has at most `n` entries, is sorted descending by value, and every
entry's value is strictly positive; when no player has a positive value the
result is `none` (empty/absent), not an error. -/
theorem findTopN_leaderboard_contract {T : Type} (players : List T) (getValue : T → ℚ)
    (pname : T → String) (pteam : T → Option String) (ppos : T → String)
    (stat description : String) (n : ℕ) :
    (∀ R, findTopN players getValue pname pteam ppos stat description n = some R →
      R.entries.length ≤ n ∧
      R.entries.Pairwise (fun a b => b.value ≤ a.value) ∧
      ∀ e ∈ R.entries, 0 < e.value) ∧
    ((∀ p ∈ players, ¬ 0 < getValue p) →
      findTopN players getValue pname pteam ppos stat description n = none) := by
  constructor
  · intro R hR
    unfold findTopN at hR
    by_cases h0 : players.length = 0
    · simp [h0] at hR
    · simp only [h0, if_false] at hR
      by_cases h1 : (topNSelect players getValue n).length = 0
      · simp [h1] at hR
      · simp only [h1, if_false, Option.some.injEq] at hR
        subst hR
        refine ⟨?_, ?_, ?_⟩
        · simpa using topNSelect_length_le players getValue n
        · exact List.pairwise_map.mpr (topNSelect_pairwise players getValue n)
        · intro e he
          rcases List.mem_map.mp he with ⟨p, hp, rfl⟩
          exact topNSelect_pos players getValue n p hp
  · intro h
    unfold findTopN
    have hsel := topNSelect_eq_nil players getValue n h
    by_cases h0 : players.length = 0
    · simp [h0]
    · simp [h0, hsel]

/-- Witness for C1 at concrete inputs: a three-player board cut to `n = 2`
(positive branch) and an all-nonpositive board (absent branch). -/
theorem findTopN_leaderboard_contract_witness :
    (∃ R, findTopN [(2 : ℚ), 1, 3] id (fun _ => "p") (fun _ => none) (fun _ => "QB")
        "s" "d" 2 = some R ∧
      R.entries.length ≤ 2 ∧
      R.entries.Pairwise (fun a b => b.value ≤ a.value) ∧
      ∀ e ∈ R.entries, 0 < e.value) ∧
    findTopN [(0 : ℚ), -1] id (fun _ => "p") (fun _ => none) (fun _ => "QB")
        "s" "d" 2 = none := by
  constructor
  · exact ⟨_, rfl,
      (findTopN_leaderboard_contract [(2 : ℚ), 1, 3] id (fun _ => "p") (fun _ => none)
        (fun _ => "QB") "s" "d" 2).1 _ rfl⟩
  · exact (findTopN_leaderboard_contract [(0 : ℚ), -1] id (fun _ => "p") (fun _ => none)
      (fun _ => "QB") "s" "d" 2).2 (by decide)

/-- C2 counterexample: for the TD/INT metric a zero denominator does NOT give 0.
`noIntQB` has 0 interceptions, yet its TD/INT value is its passTD (10), and it
appears as the sole entry of the career TD/INT leaderboard. -/
theorem tdint_zero_denominator_counterexample :
    noIntQB.interceptions = 0 ∧
    qbTDINTvalue noIntQB = 10 ∧
    (qbTDINTrecord [noIntQB]).map
      (fun R => R.entries.map (fun e => (e.playerName, e.value))) =
      some [("NoInt", 10)] := by
  refine ⟨rfl, by decide, by decide⟩

/-- C2 amended: for the ratio metrics guarded as `denom > 0 ? num/denom : 0`
(yards/attempt, yards/carry, yards/reception), a zero denominator yields exactly
0 and the player never enters the corresponding top-N selection; for TD/INT,
zero interceptions yields the player's `passTD` (which can put the player on
the career TD/INT leaderboard), and only the advanced-metric `topTDINT`
selection excludes zero-interception players. -/
theorem ratio_zero_denominator_guard (qbs : List QBPlayer) (rbs : List RBPlayer)
    (wrs : List WRPlayer) (p : QBPlayer) (rb : RBPlayer) (wr : WRPlayer) :
    (p.attempts = 0 → qbYPAvalue p = 0 ∧ ∀ n, p ∉ topNSelect qbs qbYPAvalue n) ∧
    (rb.rushAtt = 0 → rbYPCvalue rb = 0 ∧ ∀ n, rb ∉ topNSelect rbs rbYPCvalue n) ∧
    (wr.receptions = 0 → wrYPRvalue wr = 0 ∧ ∀ n, wr ∉ topNSelect wrs wrYPRvalue n) ∧
    (p.interceptions = 0 → qbTDINTvalue p = p.passTD ∧
      (∀ q, topTDINT qbs = some q → 0 < q.interceptions) ∧ topTDINT qbs ≠ some p) := by
  have hTop : ∀ q, topTDINT qbs = some q → 0 < q.interceptions := by
    intro q hq
    have hmem := List.mem_of_mem_head? hq
    have hmem2 := (sortDescBy_perm (fun x : QBPlayer => x.passTD / x.interceptions) _).mem_iff.mp hmem
    simpa using (List.mem_filter.mp hmem2).2
  refine ⟨?_, ?_, ?_, ?_⟩
  · intro h
    have hv : qbYPAvalue p = 0 := by simp [qbYPAvalue, h]
    refine ⟨hv, ?_⟩
    intro n hn
    have := topNSelect_pos qbs qbYPAvalue n p hn
    rw [hv] at this
    exact lt_irrefl 0 this
  · intro h
    have hv : rbYPCvalue rb = 0 := by simp [rbYPCvalue, h]
    refine ⟨hv, ?_⟩
    intro n hn
    have := topNSelect_pos rbs rbYPCvalue n rb hn
    rw [hv] at this
    exact lt_irrefl 0 this
  · intro h
    have hv : wrYPRvalue wr = 0 := by simp [wrYPRvalue, h]
    refine ⟨hv, ?_⟩
    intro n hn
    have := topNSelect_pos wrs wrYPRvalue n wr hn
    rw [hv] at this
    exact lt_irrefl 0 this
  · intro h
    refine ⟨by simp [qbTDINTvalue, h], hTop, ?_⟩
    intro hp
    have := hTop p hp
    rw [h] at this
    exact lt_irrefl 0 this

/-- Witness for the amended C2 at a concrete input: `zeroDenQB` (denominator 0
for yards/attempt and TD/INT) against the singleton league `[zeroDenQB]`. -/
theorem ratio_zero_denominator_guard_witness :
    (qbYPAvalue zeroDenQB = 0 ∧ ∀ n, zeroDenQB ∉ topNSelect [zeroDenQB] qbYPAvalue n) ∧
    (qbTDINTvalue zeroDenQB = zeroDenQB.passTD ∧
      (∀ q, topTDINT [zeroDenQB] = some q → 0 < q.interceptions) ∧
      topTDINT [zeroDenQB] ≠ some zeroDenQB) := by
  have h := ratio_zero_denominator_guard [zeroDenQB] [] [] zeroDenQB
    { name := "r", team := none, position := "RB", status := "Active", games := 0,
      rushYds := 0, rushTD := 0, rushAtt := 0, recYds := 0, rings := 0, mvp := 0,
      careerLegacy := 0, dominance := 0 }
    { name := "w", team := none, position := "WR", status := "Active", games := 0,
      recYds := 0, recTD := 0, receptions := 0, rings := 0, mvp := 0,
      careerLegacy := 0, dominance := 0 }
  exact ⟨h.1 rfl, h.2.2.2 rfl⟩

/-- C3 counterexample: players at exactly the stated minimum (200 attempts,
50 receptions, 32 games) are NOT eligible — the filters are strict, so each
singleton league produces an empty pool and no leader. -/
theorem threshold_exact_counterexample :
    thresholdQB.attempts = 200 ∧ qbEffPool [thresholdQB] = [] ∧
      topQBEff [thresholdQB] = none ∧
    thresholdWR.receptions = 50 ∧ wrYPRPool [thresholdWR] = [] ∧
      topYPR [thresholdWR] = none ∧
    thresholdDef.games = 32 ∧ defSackPool [thresholdDef] = [] ∧
      topSackRate [thresholdDef] = none := by
  refine ⟨rfl, by decide, by decide, rfl, by decide, by decide, rfl, by decide, by decide⟩

/-- C3 amended: the "best in class" thresholds are strict lower bounds — a
player enters the pool iff its denominator strictly exceeds the stated minimum
(attempts > 200, receptions > 50, games > 32); in particular everyone strictly
below the minimum is excluded, and any selected leader strictly exceeds it. -/
theorem threshold_strict_exclusion (qbs : List QBPlayer) (wrs : List WRPlayer)
    (defs : List DefPlayer) (p : QBPlayer) (w : WRPlayer) (d : DefPlayer) :
    (p ∈ qbEffPool qbs ↔ p ∈ qbs ∧ 200 < p.attempts) ∧
    (w ∈ wrYPRPool wrs ↔ w ∈ wrs ∧ 50 < w.receptions) ∧
    (d ∈ defSackPool defs ↔ d ∈ defs ∧ 32 < d.games) ∧
    (∀ q, topQBEff qbs = some q → 200 < q.attempts) ∧
    (∀ q, topYPR wrs = some q → 50 < q.receptions) ∧
    (∀ q, topSackRate defs = some q → 32 < q.games) := by
  refine ⟨?_, ?_, ?_, ?_, ?_, ?_⟩
  · simp [qbEffPool, List.mem_filter]
  · simp [wrYPRPool, List.mem_filter]
  · simp [defSackPool, List.mem_filter]
  · intro q hq
    have hmem := List.mem_of_mem_head? hq
    have hmem2 := (sortDescBy_perm (fun x : QBPlayer => x.passYds / x.attempts) _).mem_iff.mp hmem
    simpa [qbEffPool] using (List.mem_filter.mp hmem2).2
  · intro q hq
    have hmem := List.mem_of_mem_head? hq
    have hmem2 := (sortDescBy_perm (fun x : WRPlayer => x.recYds / x.receptions) _).mem_iff.mp hmem
    simpa [wrYPRPool] using (List.mem_filter.mp hmem2).2
  · intro q hq
    have hmem := List.mem_of_mem_head? hq
    have hmem2 := (sortDescBy_perm (fun x : DefPlayer => x.sacks / x.games) _).mem_iff.mp hmem
    simpa [defSackPool] using (List.mem_filter.mp hmem2).2

/-- Witness for the amended C3 at concrete inputs: in the league
`[thresholdQB, overQB]` the pool membership equivalence holds for `overQB`,
and the selected yards-per-attempt leader has strictly more than 200 attempts. -/
theorem threshold_strict_exclusion_witness :
    (overQB ∈ qbEffPool [thresholdQB, overQB] ↔
      overQB ∈ [thresholdQB, overQB] ∧ 200 < overQB.attempts) ∧
    200 < overQB.attempts := by
  have h := threshold_strict_exclusion [thresholdQB, overQB] [thresholdWR] [thresholdDef]
    overQB thresholdWR thresholdDef
  exact ⟨h.1, h.2.2.2.1 overQB (by decide)⟩

/-- C5: tier classification uses inclusive lower bounds — `s ≥ 800` is
LEGENDARY, `600 ≤ s < 800` ELITE, `400 ≤ s < 600` GREAT, `250 ≤ s < 400`
NOTABLE, `s < 250` SOLID; in particular exactly 800 is LEGENDARY and
799.999 is ELITE. -/
theorem getSeasonTier_inclusive_bounds :
    (getSeasonTier 800).label = "LEGENDARY" ∧
    (getSeasonTier (799999 / 1000)).label = "ELITE" ∧
    ∀ s : ℚ,
      ((getSeasonTier s).label = "LEGENDARY" ↔ 800 ≤ s) ∧
      ((getSeasonTier s).label = "ELITE" ↔ 600 ≤ s ∧ s < 800) ∧
      ((getSeasonTier s).label = "GREAT" ↔ 400 ≤ s ∧ s < 600) ∧
      ((getSeasonTier s).label = "NOTABLE" ↔ 250 ≤ s ∧ s < 400) ∧
      ((getSeasonTier s).label = "SOLID" ↔ s < 250) := by
  refine ⟨by norm_num [getSeasonTier], by norm_num [getSeasonTier], ?_⟩
  intro s
  unfold getSeasonTier
  split_ifs with h1 h2 h3 h4 <;>
    refine ⟨?_, ?_, ?_, ?_, ?_⟩ <;>
    constructor <;> intro h <;>
      first
        | rfl
        | exact absurd h (by decide)
        | (constructor <;> linarith)
        | linarith

/-- Auxiliary evaluation: the example snapshot scores exactly 370. -/
theorem qb370snapshot_score : calculateSeasonScore qb370snapshot "QB" = 370 := by
  norm_num [calculateSeasonScore, awardBonus, qb370snapshot]

/-- C6 counterexample: the example snapshot scores 370, and a 370 score is
classified NOTABLE by `getSeasonTier` (GREAT requires 400 ≤ s), so the claim's
"370 classifies as tier GREAT" is false. -/
theorem qb370_tier_counterexample :
    calculateSeasonScore qb370snapshot "QB" = 370 ∧
    (getSeasonTier (calculateSeasonScore qb370snapshot "QB")).label = "NOTABLE" ∧
    (getSeasonTier (calculateSeasonScore qb370snapshot "QB")).label ≠ "GREAT" := by
  refine ⟨qb370snapshot_score, ?_, ?_⟩ <;>
    ((rw [qb370snapshot_score]; norm_num [getSeasonTier]) <;> decide)

/-- C6 amended: the QB score is
`passYds/50 + passTD*10 + rushYds/20 + rushTD*15 − interceptions*5 + awardBonus`
with `awardBonus = mvp*100 + opoy*75 + sbmvp*80 + roty*50 + rings*60`; the
example snapshot (4000/30/200/2/10, no awards) scores exactly 370, which
classifies as tier NOTABLE (the 250 ≤ s < 400 band). -/
theorem calculateSeasonScore_qb_formula :
    (∀ s : SeasonSnapshot, calculateSeasonScore s "QB" =
      s.passYds / 50 + s.passTD * 10 + s.rushYds / 20 + s.rushTD * 15 -
        s.interceptions * 5 +
        (s.mvp * 100 + s.opoy * 75 + s.sbmvp * 80 + s.roty * 50 + s.rings * 60)) ∧
    calculateSeasonScore qb370snapshot "QB" = 370 ∧
    (getSeasonTier (calculateSeasonScore qb370snapshot "QB")).label = "NOTABLE" := by
  refine ⟨?_, qb370snapshot_score, by rw [qb370snapshot_score]; norm_num [getSeasonTier]⟩
  intro s
  simp [calculateSeasonScore, awardBonus]

/-- C7: the greatest-seasons output has at most 20 entries, is sorted descending
by score, equals the 20-entry cap of a descending sort of exactly the scored
snapshots of multi-season players, and each output element is the scored
snapshot of a player with more than one recorded season. -/
theorem greatestSeasons_spec (history : List (String × List SeasonSnapshot)) :
    (greatestSeasons history).length ≤ 20 ∧
    (greatestSeasons history).Pairwise (fun a b => b.score ≤ a.score) ∧
    (∃ l, List.Perm l (scoredSeasons history) ∧
      l.Pairwise (fun a b => b.score ≤ a.score) ∧
      greatestSeasons history = l.take 20) ∧
    (∀ g ∈ greatestSeasons history, ∃ e ∈ history, 1 < e.2.length ∧
      ∃ s ∈ e.2, g = mkGreatSeason e.1 s ∧
        g.score = calculateSeasonScore s (keyPosition e.1)) := by
  refine ⟨?_, ?_, ?_, ?_⟩
  · simp only [greatestSeasons, List.length_take]
    exact min_le_left _ _
  · exact (sortDescBy_pairwise (fun g : GreatSeason => g.score) _).sublist
      (List.take_sublist _ _)
  · exact ⟨sortDescBy (fun g => g.score) (scoredSeasons history),
      sortDescBy_perm _ _, sortDescBy_pairwise _ _, rfl⟩
  · intro g hg
    have hg1 : g ∈ sortDescBy (fun g : GreatSeason => g.score) (scoredSeasons history) :=
      List.mem_of_mem_take hg
    have hg2 : g ∈ scoredSeasons history :=
      (sortDescBy_perm (fun g : GreatSeason => g.score) _).mem_iff.mp hg1
    rcases List.mem_flatMap.mp hg2 with ⟨e, he, hge⟩
    by_cases hlen : e.2.length ≤ 1
    · rw [if_pos hlen] at hge
      cases hge
    · rw [if_neg hlen] at hge
      rcases List.mem_map.mp hge with ⟨s, hs, rfl⟩
      exact ⟨e, he, Nat.lt_of_not_le hlen, s, hs, rfl, rfl⟩

/-- Witness for C7 at a concrete input: a two-entry history in which the
single-season player "QB:Solo" is skipped and the two snapshots of "QB:Duo"
appear, sorted by score. -/
theorem greatestSeasons_spec_witness :
    (greatestSeasons demoHistory).length ≤ 20 ∧
    (∀ g ∈ greatestSeasons demoHistory, ∃ e ∈ demoHistory, 1 < e.2.length ∧
      ∃ s ∈ e.2, g = mkGreatSeason e.1 s ∧
        g.score = calculateSeasonScore s (keyPosition e.1)) := by
  have h := greatestSeasons_spec demoHistory
  exact ⟨h.1, h.2.2.2⟩

/-- C10: every pair selected for a single-season leaderboard comes from a
player whose stored history has more than one season; a key whose every stored
history entry has at most one snapshot never contributes a selected pair. -/
theorem singleSeason_requires_multiple_seasons
    (history : List (String × List SeasonSnapshot)) (filt : String → Bool)
    (getValue : SeasonSnapshot → ℚ) (stat description : String) (n : ℕ) :
    (∀ pr ∈ seasonSelect history filt getValue n,
      ∃ e ∈ history, pr.1 = e.1 ∧ pr.2 ∈ e.2 ∧ 1 < e.2.length) ∧
    (∀ k, (∀ snaps, (k, snaps) ∈ history → snaps.length ≤ 1) →
      ∀ pr ∈ seasonSelect history filt getValue n, pr.1 ≠ k) ∧
    (∀ R, findTopNSeason history filt getValue stat description n = some R →
      ∀ en ∈ R.entries, ∃ pr ∈ seasonSelect history filt getValue n,
        en.playerName = keyName pr.1 ∧ en.position = keyPosition pr.1 ∧
        en.value = getValue pr.2 ∧ en.season = some pr.2.season) := by
  have hprov : ∀ pr ∈ seasonSelect history filt getValue n,
      ∃ e ∈ history, pr.1 = e.1 ∧ pr.2 ∈ e.2 ∧ 1 < e.2.length := by
    intro pr hpr
    have h1 : pr ∈ (allSeasonPairs history).filter (fun pr => filt pr.1) :=
      topNSelect_mem _ _ _ pr hpr
    have h2 : pr ∈ allSeasonPairs history := (List.mem_filter.mp h1).1
    rcases List.mem_flatMap.mp h2 with ⟨e, he, hpe⟩
    by_cases hlen : e.2.length ≤ 1
    · rw [if_pos hlen] at hpe
      cases hpe
    · rw [if_neg hlen] at hpe
      rcases List.mem_map.mp hpe with ⟨s, hs, rfl⟩
      exact ⟨e, he, rfl, hs, Nat.lt_of_not_le hlen⟩
  refine ⟨hprov, ?_, ?_⟩
  · intro k hk pr hpr heq
    rcases hprov pr hpr with ⟨⟨k1, snaps⟩, he, hpre, hmem, hlen⟩
    have hk1 : k1 = k := by rw [← heq, hpre]
    subst hk1
    have h1 : snaps.length ≤ 1 := hk snaps he
    have h2 : 1 < snaps.length := hlen
    omega
  · intro R hR en hen
    unfold findTopNSeason at hR
    by_cases h0 : ((allSeasonPairs history).filter (fun pr => filt pr.1)).length = 0
    · simp [h0] at hR
    · simp only [h0, if_false] at hR
      by_cases h1 : (seasonSelect history filt getValue n).length = 0
      · simp [h1] at hR
      · simp only [h1, if_false, Option.some.injEq] at hR
        subst hR
        rcases List.mem_map.mp hen with ⟨pr, hpr, rfl⟩
        exact ⟨pr, hpr, rfl, rfl, rfl, rfl⟩

/-- Witness for C10 at a concrete input: in `demoHistory` the single-season
player "QB:Solo" (despite the table-topping 6000-yard season) contributes no
selected pair, while "QB:Duo" does. -/
theorem singleSeason_requires_multiple_seasons_witness :
    (∀ pr ∈ seasonSelect demoHistory (fun _ => true) (fun s => s.passYds) 5,
      pr.1 ≠ "QB:Solo") ∧
    ("QB:Duo", duoSeason2) ∈ seasonSelect demoHistory (fun _ => true)
      (fun s => s.passYds) 5 := by
  constructor
  · refine (singleSeason_requires_multiple_seasons demoHistory (fun _ => true)
      (fun s => s.passYds) "Passing Yards" "Single season" 5).2.1 "QB:Solo" ?_
    intro snaps h
    simp only [demoHistory, List.mem_cons, List.not_mem_nil, or_false,
      Prod.mk.injEq] at h
    rcases h with ⟨-, rfl⟩ | ⟨hfalse, -⟩
    · decide
    · exact absurd hfalse (by decide)
  · decide

theorem foldl_max_attained (vs : List ℚ) (v : ℚ) :
    vs.foldl max v = v ∨ vs.foldl max v ∈ vs := by
  induction vs generalizing v with
  | nil => exact Or.inl rfl
  | cons w vs ih =>
    simp only [List.foldl_cons]
    rcases ih (max v w) with h | h
    · rcases max_choice v w with hm | hm
      · exact Or.inl (h.trans hm)
      · exact Or.inr (List.mem_cons.mpr (Or.inl (h.trans hm)))
    · exact Or.inr (List.mem_cons.mpr (Or.inr h))

theorem passYdsRecord_attained (qbs : List QBPlayer) (h : qbs ≠ []) :
    ∃ q ∈ qbs, q.passYds = passYdsRecord qbs := by
  cases qbs with
  | nil => exact absurd rfl h
  | cons q rest =>
    have hrec : passYdsRecord (q :: rest) =
        (rest.map (fun p => p.passYds)).foldl max q.passYds := rfl
    rw [hrec]
    rcases foldl_max_attained (rest.map (fun p => p.passYds)) q.passYds with hh | hh
    · exact ⟨q, List.mem_cons_self q rest, hh.symm⟩
    · rcases List.mem_map.mp hh with ⟨q', hq', heq⟩
      exact ⟨q', List.mem_cons_of_mem q hq', heq⟩

theorem passYdsHolder_exists (qbs : List QBPlayer) (h : qbs ≠ []) :
    ∃ hq, passYdsHolder qbs = some hq := by
  rcases passYdsRecord_attained qbs h with ⟨q, hq, heq⟩
  have hsome : (passYdsHolder qbs).isSome := by
    rw [passYdsHolder]
    apply List.find?_isSome.mpr
    exact ⟨q, hq, by simpa using heq⟩
  exact Option.isSome_iff_exists.mp hsome

/-- C4: for every active QB with at least 16 games whose 16-game pace
`passYds/games*16` is positive and whose total is strictly below the record,
the loop body emits a `PaceToRecord` iff
`seasonsToBreak = ceil((record − current) / pace) ≤ 5`; the emitted record
carries that `seasonsToBreak` and `percentToRecord = current/record*100`. -/
theorem qbPace_emission (qbs : List QBPlayer) (qb : QBPlayer)
    (hmem : qb ∈ qbs) (hact : qb.status = "Active") (hg : (16 : ℚ) ≤ qb.games)
    (hpace : 0 < qb.passYds / qb.games * 16)
    (hlt : qb.passYds < passYdsRecord qbs) :
    ∃ h, passYdsHolder qbs = some h ∧
      (qbPaceStep (passYdsRecord qbs) (passYdsHolder qbs) qb =
        if Int.ceil ((passYdsRecord qbs - qb.passYds) / (qb.passYds / qb.games * 16)) ≤ 5
        then some (qbPaceEntry (passYdsRecord qbs) h.name qb (qb.passYds / qb.games * 16))
        else none) ∧
      (Int.ceil ((passYdsRecord qbs - qb.passYds) / (qb.passYds / qb.games * 16)) ≤ 5 →
        qbPaceEntry (passYdsRecord qbs) h.name qb (qb.passYds / qb.games * 16) ∈
          qbPaceRecords qbs) ∧
      (qbPaceEntry (passYdsRecord qbs) h.name qb
        (qb.passYds / qb.games * 16)).seasonsToBreak =
        Int.ceil ((passYdsRecord qbs - qb.passYds) / (qb.passYds / qb.games * 16)) ∧
      (qbPaceEntry (passYdsRecord qbs) h.name qb
        (qb.passYds / qb.games * 16)).percentToRecord =
        qb.passYds / passYdsRecord qbs * 100 := by
  have hne : qbs ≠ [] := List.ne_nil_of_mem hmem
  obtain ⟨hq, hh⟩ := passYdsHolder_exists qbs hne
  have hg0 : (0 : ℚ) < qb.games := by linarith
  have hstep : qbPaceStep (passYdsRecord qbs) (passYdsHolder qbs) qb =
      if Int.ceil ((passYdsRecord qbs - qb.passYds) / (qb.passYds / qb.games * 16)) ≤ 5
      then some (qbPaceEntry (passYdsRecord qbs) hq.name qb (qb.passYds / qb.games * 16))
      else none := by
    simp only [qbPaceStep.eq_def, hh]
    rw [if_pos hg0]
    rw [if_pos (And.intro hpace hlt)]
  refine ⟨hq, hh, hstep, ?_, rfl, rfl⟩
  intro hstb
  have hfil : qb ∈ qbs.filter
      (fun q => decide (q.status = "Active") && decide ((16 : ℚ) ≤ q.games)) :=
    List.mem_filter.mpr ⟨hmem, by simp [hact, hg]⟩
  apply List.mem_filterMap.mpr
  refine ⟨qb, hfil, ?_⟩
  rw [hstep, if_pos hstb]

/-- Witness for C4 at concrete inputs realizing the spec's horizon examples:
with record 600 (remaining 500 at pace 100) `seasonsToBreak = 5` and the
record is emitted; with record 700 (remaining 600 at pace 100) the ceiling is
6 and the step emits nothing. -/
theorem qbPace_emission_witness :
    (∃ h, passYdsHolder [recHolder600, paceSetter] = some h ∧
      qbPaceEntry (passYdsRecord [recHolder600, paceSetter]) h.name paceSetter
        (paceSetter.passYds / paceSetter.games * 16) ∈
        qbPaceRecords [recHolder600, paceSetter]) ∧
    Int.ceil ((passYdsRecord [recHolder600, paceSetter] - paceSetter.passYds) /
      (paceSetter.passYds / paceSetter.games * 16)) = 5 ∧
    Int.ceil ((passYdsRecord [recHolder700, paceSetter] - paceSetter.passYds) /
      (paceSetter.passYds / paceSetter.games * 16)) = 6 ∧
    qbPaceStep (passYdsRecord [recHolder700, paceSetter])
      (passYdsHolder [recHolder700, paceSetter]) paceSetter = none := by
  have hrec6 : passYdsRecord [recHolder600, paceSetter] = 600 := by
    norm_num [passYdsRecord, recHolder600, paceSetter, max_def]
  have hrec7 : passYdsRecord [recHolder700, paceSetter] = 700 := by
    norm_num [passYdsRecord, recHolder700, paceSetter, max_def]
  have hceil6 : Int.ceil ((passYdsRecord [recHolder600, paceSetter] -
      paceSetter.passYds) / (paceSetter.passYds / paceSetter.games * 16)) = 5 := by
    rw [hrec6]
    norm_num [paceSetter]
  have hceil7 : Int.ceil ((passYdsRecord [recHolder700, paceSetter] -
      paceSetter.passYds) / (paceSetter.passYds / paceSetter.games * 16)) = 6 := by
    rw [hrec7]
    norm_num [paceSetter]
  obtain ⟨h6, hh6, hstep6, hmem6, -, -⟩ :=
    qbPace_emission [recHolder600, paceSetter] paceSetter
      (by decide) rfl (by norm_num [paceSetter]) (by norm_num [paceSetter])
      (by rw [hrec6]; norm_num [paceSetter])
  obtain ⟨h7, hh7, hstep7, -, -, -⟩ :=
    qbPace_emission [recHolder700, paceSetter] paceSetter
      (by decide) rfl (by norm_num [paceSetter]) (by norm_num [paceSetter])
      (by rw [hrec7]; norm_num [paceSetter])
  refine ⟨⟨h6, hh6, hmem6 (by rw [hceil6])⟩, hceil6, hceil7, ?_⟩
  rw [hstep7, if_neg]
  rw [hceil7]
  norm_num

/-- C8: in the pace projector's output, every adjacent pair of entries has the
earlier entry's `seasonsToBreak` less than or equal to the later entry's. -/
theorem paceToRecords_sorted_ascending (qbs : List QBPlayer) (rbs : List RBPlayer)
    (wrs : List WRPlayer) :
    List.Chain' (fun a b => a.seasonsToBreak ≤ b.seasonsToBreak)
      (paceToRecords qbs rbs wrs) :=
  (sortAscBy_pairwise (fun r : PaceToRecord => r.seasonsToBreak) _).chain'

theorem readRef_alloc_new {T : Type} (σ : Store T) (xs : List T) :
    readRef (allocRef σ xs).1 (allocRef σ xs).2 = xs := by
  simp [readRef, allocRef, List.getD]

theorem readRef_alloc_old {T : Type} (σ : Store T) (xs : List T) (r : ℕ)
    (h : r < σ.length) : readRef (allocRef σ xs).1 r = readRef σ r := by
  simp [readRef, allocRef, List.getD, List.getElem?_append_left h]

theorem readRef_write_self {T : Type} (σ : Store T) (r : ℕ) (xs : List T)
    (h : r < σ.length) : readRef (writeRef σ r xs) r = xs := by
  simp [readRef, writeRef, List.getD, List.getElem?_set_self, h]

theorem readRef_write_ne {T : Type} (σ : Store T) (r r' : ℕ) (xs : List T)
    (h : r ≠ r') : readRef (writeRef σ r' xs) r = readRef σ r := by
  simp [readRef, writeRef, List.getD, List.getElem?_set_ne (Ne.symm h)]

theorem allocRef_length {T : Type} (σ : Store T) (xs : List T) :
    (allocRef σ xs).1.length = σ.length + 1 := by
  simp [allocRef]

theorem writeRef_length {T : Type} (σ : Store T) (r : ℕ) (xs : List T) :
    (writeRef σ r xs).length = σ.length := by
  simp [writeRef]

/-- C9: computing a leaderboard (`findTopN`) or a single-leader metric
(`topQBEff`) through the heap leaves the input array exactly as it was, and
returns the same value as the pure model. -/
theorem core_computations_preserve_input {T : Type} (σ : Store T)
    (σq : Store QBPlayer) (r rq : ℕ) (getValue : T → ℚ)
    (pname : T → String) (pteam : T → Option String) (ppos : T → String)
    (stat description : String) (n : ℕ)
    (hr : r < σ.length) (hrq : rq < σq.length) :
    readRef (findTopNProg σ r getValue pname pteam ppos stat description n).1 r =
      readRef σ r ∧
    (findTopNProg σ r getValue pname pteam ppos stat description n).2 =
      findTopN (readRef σ r) getValue pname pteam ppos stat description n ∧
    readRef (topQBEffProg σq rq).1 rq = readRef σq rq ∧
    (topQBEffProg σq rq).2 = topQBEff (readRef σq rq) := by
  have hqb : readRef (topQBEffProg σq rq).1 rq = readRef σq rq ∧
      (topQBEffProg σq rq).2 = topQBEff (readRef σq rq) := by
    simp only [topQBEffProg]
    set qbs := readRef σq rq with hqs
    set a1 := allocRef σq (qbs.filter (fun p => decide (200 < p.attempts))) with ha1
    set σ2 := writeRef a1.1 a1.2
      (sortDescBy (fun p => p.passYds / p.attempts) (readRef a1.1 a1.2)) with hσ2
    have hne : rq ≠ a1.2 := by
      rw [ha1]
      show rq ≠ σq.length
      omega
    have hlt : a1.2 < a1.1.length := by
      rw [ha1, allocRef_length]
      show σq.length < σq.length + 1
      omega
    have e1 : readRef a1.1 rq = readRef σq rq := by
      rw [ha1]
      exact readRef_alloc_old σq _ rq hrq
    have e2 : readRef σ2 rq = readRef a1.1 rq := by
      rw [hσ2]
      exact readRef_write_ne a1.1 rq a1.2 _ hne
    have e3 : readRef a1.1 a1.2 = qbs.filter (fun p => decide (200 < p.attempts)) := by
      rw [ha1]
      exact readRef_alloc_new σq _
    have e4 : readRef σ2 a1.2 =
        sortDescBy (fun p => p.passYds / p.attempts) (readRef a1.1 a1.2) := by
      rw [hσ2]
      exact readRef_write_self a1.1 a1.2 _ hlt
    constructor
    · rw [e2, e1]
    · rw [e4, e3]
      rfl
  refine ⟨?_, ?_, hqb.1, hqb.2⟩ <;>
  · by_cases h0 : (readRef σ r).length = 0
    · simp [findTopNProg, findTopN, h0]
    · simp only [findTopNProg, findTopN, h0, if_false]
      set players := readRef σ r with hpl
      set a1 := allocRef σ players with ha1
      set fl := (readRef a1.1 a1.2).filter (fun p => decide (0 < getValue p)) with hflv
      set a2 := allocRef a1.1 fl with ha2
      set σ3 := writeRef a2.1 a2.2 (sortDescBy getValue (readRef a2.1 a2.2)) with hσ3
      set a4 := allocRef σ3 ((readRef σ3 a2.2).take n) with ha4
      have l1 : a1.1.length = σ.length + 1 := by rw [ha1, allocRef_length]
      have l2 : a2.1.length = σ.length + 2 := by rw [ha2, allocRef_length, l1]
      have l3 : σ3.length = σ.length + 2 := by rw [hσ3, writeRef_length, l2]
      have hne : r ≠ a2.2 := by
        rw [ha2]
        show r ≠ a1.1.length
        omega
      have hlt2 : a2.2 < a2.1.length := by
        rw [ha2, allocRef_length]
        show a1.1.length < a1.1.length + 1
        omega
      have e1 : readRef a1.1 r = readRef σ r := by
        rw [ha1]
        exact readRef_alloc_old σ _ r hr
      have e2 : readRef a2.1 r = readRef a1.1 r := by
        rw [ha2]
        exact readRef_alloc_old a1.1 _ r (by omega)
      have e3 : readRef σ3 r = readRef a2.1 r := by
        rw [hσ3]
        exact readRef_write_ne a2.1 r a2.2 _ hne
      have e4 : readRef a4.1 r = readRef σ3 r := by
        rw [ha4]
        exact readRef_alloc_old σ3 _ r (by omega)
      have f1 : readRef a1.1 a1.2 = players := by
        rw [ha1]
        exact readRef_alloc_new σ _
      have f2 : readRef a2.1 a2.2 = fl := by
        rw [ha2]
        exact readRef_alloc_new a1.1 _
      have f3 : readRef σ3 a2.2 = sortDescBy getValue (readRef a2.1 a2.2) := by
        rw [hσ3]
        exact readRef_write_self a2.1 a2.2 _ hlt2
      have f4 : readRef a4.1 a4.2 = (readRef σ3 a2.2).take n := by
        rw [ha4]
        exact readRef_alloc_new σ3 _
      first
      | (rw [apply_ite Prod.fst, ite_self, e4, e3, e2, e1])
      | (rw [apply_ite Prod.snd, f4, f3, f2]
         have hfl2 : fl = players.filter (fun p => decide (0 < getValue p)) := by
           rw [hflv, f1]
         rw [hfl2]
         simp only [topNSelect])

/-- Witness for C9 at a concrete input: a two-player heap; after both programs
run, the input reference still holds the original array, and the results match
the pure functions. -/
theorem core_computations_preserve_input_witness :
    readRef (findTopNProg [[ (5 : ℚ), 0, 7 ]] 0 id (fun _ => "p") (fun _ => none)
      (fun _ => "QB") "s" "d" 2).1 0 = [(5 : ℚ), 0, 7] ∧
    readRef (topQBEffProg [[noIntQB, overQB]] 0).1 0 = [noIntQB, overQB] := by
  have h := core_computations_preserve_input [[ (5 : ℚ), 0, 7 ]] [[noIntQB, overQB]]
    0 0 id (fun _ => "p") (fun _ => none) (fun _ => "QB") "s" "d" 2
    (by decide) (by decide)
  refine ⟨?_, ?_⟩
  · rw [h.1]; rfl
  · rw [h.2.2.1]; rfl

end RetroVault
